import Mathlib

/-!
Verification development for the `posing_coach` repository.

The repository exposes two Flask services:
* `src/server/densepose-service.py` — the real DensePose analysis service;
* `src/server/densepose-mock.py` — a mock service returning canned data.

We shallowly embed the request handlers and the mock-data construction.
Python floats that appear in the sources only as exact decimal literals and
exact small-fraction arithmetic (`(i % 100) / 100.0`, `0.98`) are modelled
as rationals; machine integers are modelled as `Int`/`Nat` (no overflow is
possible at the sizes involved).
-/

set_option autoImplicit false

universe u

/-! ### 2D grids (Python lists of lists, as produced by `np.zeros(...).tolist()`) -/

/-- A Python list of lists. -/
abbrev Grid (α : Type u) := List (List α)

/-- Read `g[i][j]`, with default `d` out of range (all source accesses are in
range; the default only makes the embedding total). -/
def get2 {α : Type u} (d : α) (g : Grid α) (i j : Nat) : α :=
  (g.getD i []).getD j d

/-- The in-place assignment `g[i][j] = v`. -/
def set2 {α : Type u} (g : Grid α) (i j : Nat) (v : α) : Grid α :=
  g.set i ((g.getD i []).set j v)

/-- `np.zeros((r, c)).tolist()`, with `v` the zero of the dtype. -/
def zeros2 {α : Type u} (r c : Nat) (v : α) : Grid α :=
  List.replicate r (List.replicate c v)

/-- Python's `for i in range(a, a+n): s = body(i, s)` loop, iterating
`i = a, a+1, ..., a+n-1` in order over a state `s`. -/
def forRange {σ : Type u} (a n : Nat) (body : Nat → σ → σ) (s : σ) : σ :=
  match n with
  | 0 => s
  | m + 1 => forRange (a + 1) m body (body a s)

/-! ### The mock service's grids (`densepose-mock.py`, lines 37-81)

The handler starts from `np.zeros((256, 256))` grids, then mutates
`body_parts = mock_result["instances"][0]["body_parts"][0]` with three
rectangular nested loops, and finally writes U/V values at every pixel whose
body-part id is positive.  Each loop pass is rendered as a `forRange` over the
same index ranges as the Python `range` calls; the single Python loop that
writes both `u_coords` and `v_coords` is split into one pass per array (the
two writes touch different arrays and do not interact). -/

/-- The zero grid `np.zeros((256, 256), dtype=int).tolist()`. -/
def bpGrid0 : Grid Int := zeros2 256 256 0

/-- After the torso loop: `for i in range(100, 150): for j in range(100, 200):
body_parts[i][j] = 1`. -/
def bpGrid1 : Grid Int :=
  forRange 100 50 (fun i g => forRange 100 100 (fun j g => set2 g i j 1) g) bpGrid0

/-- After the left-arm loop: `for i in range(80, 100): for j in range(100, 130):
body_parts[i][j] = 10`. -/
def bpGrid2 : Grid Int :=
  forRange 80 20 (fun i g => forRange 100 30 (fun j g => set2 g i j 10) g) bpGrid1

/-- The final `body_parts` grid, after the right-arm loop:
`for i in range(150, 170): for j in range(100, 130): body_parts[i][j] = 11`. -/
def mockBodyParts : Grid Int :=
  forRange 150 20 (fun i g => forRange 100 30 (fun j g => set2 g i j 11) g) bpGrid2

/-- The final `u_coords` grid: `for i in range(256): for j in range(256):
if body_parts[i][j] > 0: u_coords[i][j] = (i % 100) / 100.0`. -/
def mockU : Grid ℚ :=
  forRange 0 256 (fun i g => forRange 0 256 (fun j g =>
    if 0 < get2 0 mockBodyParts i j then set2 g i j (((i % 100 : Nat) : ℚ) / 100) else g) g)
    (zeros2 256 256 0)

/-- The final `v_coords` grid: `for i in range(256): for j in range(256):
if body_parts[i][j] > 0: v_coords[i][j] = (j % 100) / 100.0`. -/
def mockV : Grid ℚ :=
  forRange 0 256 (fun i g => forRange 0 256 (fun j g =>
    if 0 < get2 0 mockBodyParts i j then set2 g i j (((j % 100 : Nat) : ℚ) / 100) else g) g)
    (zeros2 256 256 0)

/-! ### Request bodies

`request.get_json()` is modelled as an `Option JsonDict`: `none` when no JSON
body could be obtained, `some d` for a parsed JSON object `d`.  Only the
`image` key is ever read by the handlers, and the data model (spec section 3)
types it as a base64 string, so values are modelled as strings.  Python's
`not data` on a dict is truthiness: `True` exactly when the dict is empty. -/

/-- A parsed JSON request body (association list of key/value pairs). -/
abbrev JsonDict := List (String × String)

/-! ### Python's `base64.b64decode` (non-strict `binascii.a2b_base64`)

`b64decode` on a `str` first requires pure ASCII, then runs the C decoder in
non-strict mode: characters outside the base64 alphabet are discarded; `=`
ends decoding once at least two data characters of the current quad plus the
accumulated padding complete a quad; at end of input a quad position of 1
data character is an "Invalid base64-encoded string ..." error and a quad
position of 2 or 3 is an "Incorrect padding" error.  Bytes are accumulated
6 bits per data character. -/

/-- The base64 alphabet table: index of a data character, `none` otherwise. -/
def b64Char (c : Char) : Option Nat :=
  if 'A' ≤ c ∧ c ≤ 'Z' then some (c.toNat - 65)
  else if 'a' ≤ c ∧ c ≤ 'z' then some (c.toNat - 97 + 26)
  else if '0' ≤ c ∧ c ≤ '9' then some (c.toNat - 48 + 52)
  else if c = '+' then some 62
  else if c = '/' then some 63
  else none

/-- The decoder loop of `binascii.a2b_base64` (non-strict mode).  Arguments:
remaining input, quad position (0-3), pending high bits, pending padding
count, number of data characters seen, output bytes in reverse order. -/
def a2bLoop : List Char → Nat → Nat → Nat → Nat → List Nat → Except String (List Nat)
  | [], quadPos, _, _, ndata, out =>
    if quadPos = 0 then .ok out.reverse
    else if quadPos = 1 then
      .error ("Invalid base64-encoded string: number of data characters (" ++ toString ndata
        ++ ") cannot be 1 more than a multiple of 4")
    else .error "Incorrect padding"
  | c :: cs, quadPos, leftchar, pads, ndata, out =>
    if c = '=' then
      if 2 ≤ quadPos then
        if 4 ≤ quadPos + pads + 1 then .ok out.reverse
        else a2bLoop cs quadPos leftchar (pads + 1) ndata out
      else a2bLoop cs quadPos leftchar pads ndata out
    else
      match b64Char c with
      | none => a2bLoop cs quadPos leftchar pads ndata out
      | some t =>
        match quadPos with
        | 0 => a2bLoop cs 1 t 0 (ndata + 1) out
        | 1 => a2bLoop cs 2 (t % 16) 0 (ndata + 1) ((leftchar * 4 + t / 16) :: out)
        | 2 => a2bLoop cs 3 (t % 4) 0 (ndata + 1) ((leftchar * 16 + t / 4) :: out)
        | _ => a2bLoop cs 0 0 0 (ndata + 1) ((leftchar * 64 + t) :: out)

/-- `base64.b64decode` applied to a `str` (`densepose-service.py`, line 144):
an exception is modelled as `Except.error` carrying `str(e)`. -/
def b64decode (s : String) : Except String (List Nat) :=
  if s.toList.any (fun c => 128 ≤ c.toNat) then
    .error "string argument should contain only ASCII characters"
  else a2bLoop s.toList 0 0 0 0 []

/-- Lines 141-142 of `densepose-service.py`: strip a leading data-URL header.
`image_data.split(',')[1]` raises `IndexError` when no comma is present. -/
def stripDataUrl (s : String) : Except String String :=
  if "data:image".isPrefixOf s then
    let parts := s.splitOn ","
    if h : 1 < parts.length then .ok (parts.get ⟨1, h⟩)
    else .error "list index out of range"
  else .ok s

/-! ### The mock service's handler (`densepose-mock.py`, `analyze_pose`) -/

/-- One entry of `mock_result["instances"]`.  Note that each grid field wraps
its 256x256 grid in an extra singleton list, exactly as the source does with
`[np.zeros((256, 256), dtype=int).tolist()]`. -/
structure MockInstance where
  body_parts : List (Grid Int)
  u_coordinates : List (Grid ℚ)
  v_coordinates : List (Grid ℚ)
  bbox : List Int
  score : ℚ

/-- The `mock_result` JSON object. -/
structure MockResponse where
  num_instances : Nat
  instances : List MockInstance

/-- The single synthesized instance: grids as finally mutated, bounding box
`[50, 50, 200, 400]`, score `0.98`. -/
def mockInstance : MockInstance :=
  ⟨[mockBodyParts], [mockU], [mockV], [50, 50, 200, 400], 98 / 100⟩

/-- The complete `mock_result` returned by the mock handler. -/
def mockResult : MockResponse := ⟨1, [mockInstance]⟩

/-- A JSON body returned by the mock `/analyze` endpoint. -/
inductive MockBody where
  | errorObj (msg : String)
  | result (r : MockResponse)

/-- An HTTP response of the mock `/analyze` endpoint. -/
structure MockHttp where
  status : Nat
  body : MockBody

/-- The mock `analyze_pose` handler: `if not data or 'image' not in data`
returns 400, otherwise the canned `mock_result` with Flask's default
status 200.  (`not data` is dict truthiness: `none` or the empty dict.) -/
def analyze_mock (data : Option JsonDict) : MockHttp :=
  match data with
  | none => ⟨400, .errorObj "Request must include 'image' field with base64-encoded image data"⟩
  | some d =>
    if d.isEmpty then
      ⟨400, .errorObj "Request must include 'image' field with base64-encoded image data"⟩
    else
      match d.lookup "image" with
      | none =>
        ⟨400, .errorObj "Request must include 'image' field with base64-encoded image data"⟩
      | some _ => ⟨200, .result mockResult⟩

/-! ### The real service (`densepose-service.py`)

External components are abstracted as parameters: `cv2.imdecode` (composed
with `np.frombuffer`) is a function from the decoded bytes to an optional
image (`None` meaning failure), and the DensePose predictor plus the tensor
extraction performed on its output (`outputs["instances"].to("cpu")`,
`pred_densepose`, `pred_boxes`, `scores`) is a function from an image to
either an exception (`Except.error`) or a `ModelOut`. -/

/-- The `.tolist()` of a model tensor (exact numeric contents are opaque to
the handler and never inspected). -/
abbrev Tensor := List (List (List ℚ))

/-- One element of `instances.pred_densepose`. -/
structure DPInstance where
  fine_segm : Tensor
  u : Tensor
  v : Tensor

/-- The fields of the model output read by `process_image`:
`hasDensepose` is `instances.has("pred_densepose")`; `boxes` and `scores`
are already `[]` when the corresponding field is absent, matching the
conditional expressions on lines 75-76. -/
structure ModelOut where
  hasDensepose : Bool
  densepose : List DPInstance
  boxes : List (List ℚ)
  scores : List ℚ

/-- One entry of the real service's `instances` result list. -/
structure RealInstance where
  body_parts : Tensor
  u_coordinates : Tensor
  v_coordinates : Tensor
  bbox : List ℚ
  score : ℚ

/-- The real service's `AnalysisResponse` shape. -/
structure RealResponse where
  num_instances : Nat
  instances : List RealInstance

/-- What `process_image` returns: either the error dict of line 69 or a
response dict (lines 106-109). -/
inductive PIResult where
  | err (msg : String)
  | ok (r : RealResponse)

/-- `process_image` (lines 51-109), starting from the extracted model
output. -/
def process_image (out : ModelOut) : PIResult :=
  if !out.hasDensepose then .err "No DensePose predictions available for this image"
  else
    let results := (List.range out.densepose.length).map (fun i =>
      let dp := out.densepose.getD i ⟨[], [], []⟩
      (⟨dp.fine_segm, dp.u, dp.v,
        if i < out.boxes.length then out.boxes.getD i [] else [],
        if i < out.scores.length then out.scores.getD i 0 else 0⟩ : RealInstance))
    .ok ⟨results.length, results⟩

/-- A JSON body returned by the real `/analyze` endpoint. -/
inductive RealBody where
  | errorObj (msg : String)
  | result (r : RealResponse)

/-- An HTTP response of the real `/analyze` endpoint. -/
structure RealHttp where
  status : Nat
  body : RealBody

/-- The `try` block of the real `analyze_pose` (lines 133-159): body check,
prefix stripping, base64 decoding, image decoding, inference, serialization.
Every exception raised inside (`binascii.Error`, `IndexError`, inference
errors) is caught by the `except` clause and mapped to
`500 {error: "Error processing image: " + str(e)}`. -/
def tryBlock {ι P : Type} (p : P) (imdecode : List Nat → Option ι)
    (predictor : P → ι → Except String ModelOut) (data : Option JsonDict) : RealHttp :=
  match data with
  | none => ⟨400, .errorObj "Request must include 'image' field with base64-encoded image data"⟩
  | some d =>
    if d.isEmpty then
      ⟨400, .errorObj "Request must include 'image' field with base64-encoded image data"⟩
    else
      match d.lookup "image" with
      | none =>
        ⟨400, .errorObj "Request must include 'image' field with base64-encoded image data"⟩
      | some image_data =>
        match stripDataUrl image_data with
        | .error e => ⟨500, .errorObj ("Error processing image: " ++ e)⟩
        | .ok stripped =>
          match b64decode stripped with
          | .error e => ⟨500, .errorObj ("Error processing image: " ++ e)⟩
          | .ok bytes =>
            match imdecode bytes with
            | none => ⟨400, .errorObj "Failed to decode image"⟩
            | some img =>
              match predictor p img with
              | .error e => ⟨500, .errorObj ("Error processing image: " ++ e)⟩
              | .ok out =>
                match process_image out with
                | .err m => ⟨200, .errorObj m⟩
                | .ok r => ⟨200, .result r⟩

/-- The real `analyze_pose` handler (lines 117-159).  `pred` is the global
`predictor` (`none` when not yet initialized), `setup` the outcome of
`setup_densepose_predictor()` (`Except.error` when it raises).  The predictor
check precedes any look at the request body. -/
def analyze_real {ι P : Type} (pred : Option P) (setup : Except String P)
    (imdecode : List Nat → Option ι) (predictor : P → ι → Except String ModelOut)
    (data : Option JsonDict) : RealHttp :=
  match pred with
  | some p => tryBlock p imdecode predictor data
  | none =>
    match setup with
    | .error e => ⟨500, .errorObj ("Failed to initialize DensePose predictor: " ++ e)⟩
    | .ok p => tryBlock p imdecode predictor data

/-- The request bodies rejected by the `if not data or 'image' not in data`
check: absent JSON, the empty object, or an object without the `image` key. -/
def missingImage : Option JsonDict → Prop
  | none => True
  | some d => d = [] ∨ d.lookup "image" = none

/-! ### Lemmas: loops, fills, and grid characterizations -/

theorem forRange_zero {σ : Type u} (a : Nat) (body : Nat → σ → σ) (s : σ) :
    forRange a 0 body s = s := rfl

theorem forRange_succ {σ : Type u} (a m : Nat) (body : Nat → σ → σ) (s : σ) :
    forRange a (m + 1) body s = forRange (a + 1) m body (body a s) := rfl

/-! ### Pointwise lemmas about list update and read -/

theorem getD_set {α : Type u} (l : List α) (i : Nat) (v : α) (k : Nat) (d : α) :
    (l.set i v).getD k d = if i = k ∧ i < l.length then v else l.getD k d := by
  induction l generalizing i k with
  | nil => simp
  | cons x xs ih =>
    cases i with
    | zero =>
      cases k with
      | zero => simp
      | succ k => simp
    | succ i =>
      cases k with
      | zero => simp
      | succ k =>
        simp only [List.set_cons_succ, List.getD_cons_succ, ih, List.length_cons]
        by_cases h : i = k ∧ i < xs.length
        · rw [if_pos h, if_pos (by omega)]
        · rw [if_neg h, if_neg (by omega)]

theorem getD_replicate {α : Type u} (n : Nat) (x : α) (k : Nat) (d : α) :
    (List.replicate n x).getD k d = if k < n then x else d := by
  induction n generalizing k with
  | zero => simp
  | succ n ih =>
    cases k with
    | zero => simp [List.replicate]
    | succ k =>
      simp only [List.replicate, List.getD_cons_succ, ih]
      by_cases h : k < n
      · rw [if_pos h, if_pos (by omega)]
      · rw [if_neg h, if_neg (by omega)]

theorem length_set2 {α : Type u} (g : Grid α) (i j : Nat) (v : α) :
    (set2 g i j v).length = g.length := by
  simp [set2]

theorem row_set2 {α : Type u} (g : Grid α) (i j k : Nat) (v : α) :
    ((set2 g i j v).getD k []).length = (g.getD k []).length := by
  simp only [set2]
  rw [getD_set]
  by_cases h : i = k ∧ i < g.length
  · rw [if_pos h, List.length_set, h.1]
  · rw [if_neg h]

theorem get2_set2 {α : Type u} (d : α) (g : Grid α) (i j : Nat) (v : α) (k l : Nat) :
    get2 d (set2 g i j v) k l =
      if i = k ∧ j = l ∧ i < g.length ∧ j < (g.getD i []).length then v
      else get2 d g k l := by
  simp only [get2, set2]
  rw [getD_set]
  by_cases h1 : i = k ∧ i < g.length
  · obtain ⟨hik, hlen⟩ := h1
    subst hik
    rw [if_pos ⟨rfl, hlen⟩, getD_set]
    by_cases h2 : j = l ∧ j < (g.getD i []).length
    · rw [if_pos h2, if_pos ⟨rfl, h2.1, hlen, h2.2⟩]
    · rw [if_neg h2, if_neg (by tauto)]
  · rw [if_neg h1, if_neg (by tauto)]

theorem get2_zeros2_self {α : Type u} (v : α) (r c k l : Nat) :
    get2 v (zeros2 r c v) k l = v := by
  simp only [get2, zeros2]
  rw [getD_replicate]
  by_cases h : k < r
  · rw [if_pos h, getD_replicate]
    by_cases h2 : l < c
    · rw [if_pos h2]
    · rw [if_neg h2]
  · rw [if_neg h]
    simp

theorem length_zeros2 {α : Type u} (r c : Nat) (v : α) :
    (zeros2 r c v).length = r := by
  simp [zeros2]

theorem row_zeros2 {α : Type u} (r c : Nat) (v : α) (k : Nat) :
    ((zeros2 r c v).getD k []).length = if k < r then c else 0 := by
  simp only [zeros2]
  rw [getD_replicate]
  by_cases h : k < r
  · rw [if_pos h, if_pos h, List.length_replicate]
  · rw [if_neg h, if_neg h]
    rfl

/-- Invariant preservation along a `forRange` loop. -/
theorem forRange_inv {σ : Type u} (P : σ → Prop) (body : Nat → σ → σ)
    (hbody : ∀ i s, P s → P (body i s)) :
    ∀ (n a : Nat) (s : σ), P s → P (forRange a n body s) := by
  intro n
  induction n with
  | zero => intro a s h; exact h
  | succ m ih => intro a s h; exact ih (a + 1) (body a s) (hbody a s h)

/-! ### Characterization of nested fill loops -/

/-- Dimensions are preserved by one row of a conditional fill loop. -/
theorem fillRow_dims {α : Type} (cond : Nat → Nat → Prop) [inst : ∀ i j, Decidable (cond i j)]
    (f : Nat → Nat → α) (i : Nat) (m c : Nat) (g : Grid α) :
    (forRange c m (fun j g => if cond i j then set2 g i j (f i j) else g) g).length = g.length ∧
    ∀ k, ((forRange c m (fun j g => if cond i j then set2 g i j (f i j) else g) g).getD k []).length
        = (g.getD k []).length := by
  refine forRange_inv
    (fun s => s.length = g.length ∧ ∀ k, (s.getD k []).length = (g.getD k []).length)
    (fun j g => if cond i j then set2 g i j (f i j) else g) ?_ m c g ⟨rfl, fun _ => rfl⟩
  intro j s hs
  dsimp only
  by_cases hc : cond i j
  · rw [if_pos hc]
    exact ⟨(length_set2 s i j (f i j)).trans hs.1,
      fun k => (row_set2 s i j k (f i j)).trans (hs.2 k)⟩
  · rw [if_neg hc]; exact hs

/-- Effect of one row (`i`) of a conditional fill loop on a single cell. -/
theorem get2_fillRow {α : Type} (d : α) (cond : Nat → Nat → Prop) [inst : ∀ i j, Decidable (cond i j)]
    (f : Nat → Nat → α) (i : Nat) :
    ∀ (m c : Nat) (g : Grid α) (k l : Nat),
    get2 d (forRange c m (fun j g => if cond i j then set2 g i j (f i j) else g) g) k l =
      if i = k ∧ c ≤ l ∧ l < c + m ∧ cond i l ∧ i < g.length ∧ l < (g.getD i []).length
      then f i l else get2 d g k l := by
  intro m
  induction m with
  | zero =>
    intro c g k l
    rw [forRange_zero, if_neg (by rintro ⟨_, h1, h2, _⟩; omega)]
  | succ m ih =>
    intro c g k l
    rw [forRange_succ, ih]
    by_cases hc : cond i c
    · rw [if_pos hc]
      rw [length_set2, row_set2, get2_set2]
      by_cases hik : i = k
      · subst hik
        by_cases hlen : i < g.length
        · by_cases hrow : l < (g.getD i []).length
          · by_cases hcl : c = l
            · subst hcl
              rw [if_neg (by rintro ⟨_, h1, _⟩; omega),
                if_pos ⟨rfl, rfl, hlen, hrow⟩,
                if_pos ⟨rfl, by omega, by omega, hc, hlen, hrow⟩]
            · by_cases hcond : cond i l
              · by_cases hrange : c + 1 ≤ l ∧ l < c + 1 + m
                · rw [if_pos ⟨rfl, hrange.1, hrange.2, hcond, hlen, hrow⟩,
                    if_pos ⟨rfl, by omega, by omega, hcond, hlen, hrow⟩]
                · rw [if_neg (by rintro ⟨_, h1, h2, _⟩; exact hrange ⟨h1, h2⟩),
                    if_neg (by rintro ⟨h1, h2, h3, _⟩; omega),
                    if_neg (by rintro ⟨_, h1, h2, _⟩; omega)]
              · rw [if_neg (by rintro ⟨_, _, _, h4, _⟩; exact hcond h4),
                  if_neg (by rintro ⟨_, h2, _⟩; omega),
                  if_neg (by rintro ⟨_, _, _, h4, _⟩; exact hcond h4)]
          · rw [if_neg (by rintro ⟨_, _, _, _, _, h6⟩; exact hrow h6),
              if_neg (by rintro ⟨_, h2, _, h4⟩; exact hrow (h2 ▸ h4)),
              if_neg (by rintro ⟨_, _, _, _, _, h6⟩; exact hrow h6)]
        · rw [if_neg (by rintro ⟨_, _, _, _, h5, _⟩; exact hlen h5),
            if_neg (by rintro ⟨_, _, h3, _⟩; exact hlen h3),
            if_neg (by rintro ⟨_, _, _, _, h5, _⟩; exact hlen h5)]
      · rw [if_neg (by rintro ⟨h1, _⟩; exact hik h1),
          if_neg (by rintro ⟨h1, _⟩; exact hik h1),
          if_neg (by rintro ⟨h1, _⟩; exact hik h1)]
    · rw [if_neg hc]
      by_cases hcl : c = l
      · subst hcl
        rw [if_neg (by rintro ⟨_, h1, _⟩; omega),
          if_neg (by rintro ⟨_, _, _, h4, _⟩; exact hc h4)]
      · by_cases h : i = k ∧ c + 1 ≤ l ∧ l < c + 1 + m ∧ cond i l ∧ i < g.length
            ∧ l < (g.getD i []).length
        · rw [if_pos h, if_pos ⟨h.1, by omega, by omega, h.2.2.2⟩]
        · have hneg : ¬(i = k ∧ c ≤ l ∧ l < c + (m + 1) ∧ cond i l ∧ i < g.length
              ∧ l < (g.getD i []).length) := by
            rintro ⟨h1, h2, h3, h4, h5⟩
            exact h ⟨h1, by omega, by omega, h4, h5⟩
          rw [if_neg h, if_neg hneg]

/-- Dimensions are preserved by a full conditional 2D fill loop. -/
theorem fill2_dims {α : Type} (cond : Nat → Nat → Prop) [inst : ∀ i j, Decidable (cond i j)]
    (f : Nat → Nat → α) (c m : Nat) (n a : Nat) (g : Grid α) :
    (forRange a n (fun i g =>
        forRange c m (fun j g => if cond i j then set2 g i j (f i j) else g) g) g).length
      = g.length ∧
    ∀ k, ((forRange a n (fun i g =>
        forRange c m (fun j g => if cond i j then set2 g i j (f i j) else g) g) g).getD k []).length
      = (g.getD k []).length := by
  refine forRange_inv
    (fun s => s.length = g.length ∧ ∀ k, (s.getD k []).length = (g.getD k []).length)
    (fun i g => forRange c m (fun j g => if cond i j then set2 g i j (f i j) else g) g)
    ?_ n a g ⟨rfl, fun _ => rfl⟩
  intro i s hs
  dsimp only
  obtain ⟨h1, h2⟩ := fillRow_dims cond f i m c s
  exact ⟨h1.trans hs.1, fun k => (h2 k).trans (hs.2 k)⟩

/-- Effect of a full conditional 2D fill loop on a single cell. -/
theorem get2_fill2 {α : Type} (d : α) (cond : Nat → Nat → Prop) [inst : ∀ i j, Decidable (cond i j)]
    (f : Nat → Nat → α) (c m : Nat) :
    ∀ (n a : Nat) (g : Grid α) (k l : Nat),
    get2 d (forRange a n (fun i g =>
        forRange c m (fun j g => if cond i j then set2 g i j (f i j) else g) g) g) k l =
      if a ≤ k ∧ k < a + n ∧ c ≤ l ∧ l < c + m ∧ cond k l ∧ k < g.length
          ∧ l < (g.getD k []).length
      then f k l else get2 d g k l := by
  intro n
  induction n with
  | zero =>
    intro a g k l
    rw [forRange_zero, if_neg (by rintro ⟨h1, h2, _⟩; omega)]
  | succ n ih =>
    intro a g k l
    rw [forRange_succ, ih]
    obtain ⟨hdim1, hdim2⟩ := fillRow_dims cond f a m c g
    rw [hdim1, hdim2 k, get2_fillRow]
    by_cases hak : a = k
    · subst hak
      by_cases hbody : c ≤ l ∧ l < c + m ∧ cond a l ∧ a < g.length ∧ l < (g.getD a []).length
      · obtain ⟨b1, b2, b3, b4, b5⟩ := hbody
        rw [if_neg (by rintro ⟨h1, h2, _⟩; omega),
          if_pos ⟨rfl, b1, b2, b3, b4, b5⟩,
          if_pos ⟨by omega, by omega, b1, b2, b3, b4, b5⟩]
      · rw [if_neg (by rintro ⟨h1, h2, h3, h4, h5, h6, h7⟩; omega),
          if_neg (by rintro ⟨h1, h2, h3, h4, h5⟩; exact hbody ⟨h2, h3, h4, h5⟩),
          if_neg (by rintro ⟨h1, h2, h3, h4, h5, h6, h7⟩; exact hbody ⟨h3, h4, h5, h6, h7⟩)]
    · by_cases hrest : a + 1 ≤ k ∧ k < a + 1 + n ∧ c ≤ l ∧ l < c + m ∧ cond k l
          ∧ k < g.length ∧ l < (g.getD k []).length
      · obtain ⟨b1, b2, b3, b4, b5, b6, b7⟩ := hrest
        rw [if_pos ⟨b1, b2, b3, b4, b5, b6, b7⟩,
          if_pos ⟨by omega, by omega, b3, b4, b5, b6, b7⟩]
      · have hneg2 : ¬(a ≤ k ∧ k < a + (n + 1) ∧ c ≤ l ∧ l < c + m ∧ cond k l
            ∧ k < g.length ∧ l < (g.getD k []).length) := by
          rintro ⟨h1, h2, h3, h4, h5, h6, h7⟩
          exact hrest ⟨by omega, by omega, h3, h4, h5, h6, h7⟩
        rw [if_neg hrest, if_neg (by rintro ⟨h1, _⟩; exact hak h1), if_neg hneg2]

/-- Unconditional rectangular fill: the nested loops
`for i in range(a, a+n): for j in range(c, c+m): g[i][j] = v`. -/
theorem get2_fillRect {α : Type} (d : α) (v : α) (a n c m : Nat) (g : Grid α) (k l : Nat) :
    get2 d (forRange a n (fun i g => forRange c m (fun j g => set2 g i j v) g) g) k l =
      if a ≤ k ∧ k < a + n ∧ c ≤ l ∧ l < c + m ∧ k < g.length ∧ l < (g.getD k []).length
      then v else get2 d g k l := by
  have h := get2_fill2 d (fun _ _ => True) (fun _ _ => v) c m n a g k l
  simp only [if_true, true_and, and_true] at h
  rw [h]

theorem fillRect_dims {α : Type} (v : α) (a n c m : Nat) (g : Grid α) :
    (forRange a n (fun i g => forRange c m (fun j g => set2 g i j v) g) g).length = g.length ∧
    ∀ k, ((forRange a n (fun i g => forRange c m (fun j g => set2 g i j v) g) g).getD k []).length
      = (g.getD k []).length := by
  have h := fill2_dims (fun _ _ => True) (fun _ _ => v) c m n a g
  simpa only [if_true] using h

theorem bpGrid1_len : bpGrid1.length = 256 := by
  unfold bpGrid1
  rw [(fillRect_dims 1 100 50 100 100 bpGrid0).1]
  unfold bpGrid0
  exact length_zeros2 256 256 0

theorem bpGrid1_row (k : Nat) : (bpGrid1.getD k []).length = if k < 256 then 256 else 0 := by
  unfold bpGrid1
  rw [(fillRect_dims 1 100 50 100 100 bpGrid0).2 k]
  unfold bpGrid0
  exact row_zeros2 256 256 0 k

theorem bpGrid2_len : bpGrid2.length = 256 := by
  unfold bpGrid2
  rw [(fillRect_dims 10 80 20 100 30 bpGrid1).1]
  exact bpGrid1_len

theorem bpGrid2_row (k : Nat) : (bpGrid2.getD k []).length = if k < 256 then 256 else 0 := by
  unfold bpGrid2
  rw [(fillRect_dims 10 80 20 100 30 bpGrid1).2 k]
  exact bpGrid1_row k

theorem mockBodyParts_len : mockBodyParts.length = 256 := by
  unfold mockBodyParts
  rw [(fillRect_dims 11 150 20 100 30 bpGrid2).1]
  exact bpGrid2_len

theorem mockBodyParts_row (k : Nat) :
    (mockBodyParts.getD k []).length = if k < 256 then 256 else 0 := by
  unfold mockBodyParts
  rw [(fillRect_dims 11 150 20 100 30 bpGrid2).2 k]
  exact bpGrid2_row k

/-- Closed form of the mock body-part grid. -/
theorem mockBodyParts_char (k l : Nat) (hk : k < 256) (hl : l < 256) :
    get2 0 mockBodyParts k l =
      if 100 ≤ k ∧ k < 150 ∧ 100 ≤ l ∧ l < 200 then 1
      else if 80 ≤ k ∧ k < 100 ∧ 100 ≤ l ∧ l < 130 then 10
      else if 150 ≤ k ∧ k < 170 ∧ 100 ≤ l ∧ l < 130 then 11
      else 0 := by
  unfold mockBodyParts
  rw [get2_fillRect, bpGrid2_len, bpGrid2_row k, if_pos hk]
  unfold bpGrid2
  rw [get2_fillRect, bpGrid1_len, bpGrid1_row k, if_pos hk]
  unfold bpGrid1
  rw [get2_fillRect]
  unfold bpGrid0
  rw [length_zeros2, row_zeros2, if_pos hk, get2_zeros2_self]
  split_ifs <;> omega

theorem mockU_len : mockU.length = 256 := by
  unfold mockU
  rw [(fill2_dims (fun i j => 0 < get2 0 mockBodyParts i j)
    (fun i j => ((i % 100 : Nat) : ℚ) / 100) 0 256 256 0 (zeros2 256 256 0)).1]
  exact length_zeros2 256 256 0

theorem mockU_row (k : Nat) : (mockU.getD k []).length = if k < 256 then 256 else 0 := by
  unfold mockU
  rw [(fill2_dims (fun i j => 0 < get2 0 mockBodyParts i j)
    (fun i j => ((i % 100 : Nat) : ℚ) / 100) 0 256 256 0 (zeros2 256 256 0)).2 k]
  exact row_zeros2 256 256 0 k

theorem mockV_len : mockV.length = 256 := by
  unfold mockV
  rw [(fill2_dims (fun i j => 0 < get2 0 mockBodyParts i j)
    (fun i j => ((j % 100 : Nat) : ℚ) / 100) 0 256 256 0 (zeros2 256 256 0)).1]
  exact length_zeros2 256 256 0

theorem mockV_row (k : Nat) : (mockV.getD k []).length = if k < 256 then 256 else 0 := by
  unfold mockV
  rw [(fill2_dims (fun i j => 0 < get2 0 mockBodyParts i j)
    (fun i j => ((j % 100 : Nat) : ℚ) / 100) 0 256 256 0 (zeros2 256 256 0)).2 k]
  exact row_zeros2 256 256 0 k

/-- Closed form of the mock U-coordinate grid. -/
theorem mockU_char (k l : Nat) (hk : k < 256) (hl : l < 256) :
    get2 0 mockU k l =
      if 0 < get2 0 mockBodyParts k l then ((k % 100 : Nat) : ℚ) / 100 else 0 := by
  unfold mockU
  rw [get2_fill2 0 (fun i j => 0 < get2 0 mockBodyParts i j)
    (fun i j => ((i % 100 : Nat) : ℚ) / 100) 0 256 256 0 (zeros2 256 256 0) k l]
  rw [length_zeros2, row_zeros2, if_pos hk, get2_zeros2_self]
  by_cases hbp : 0 < get2 0 mockBodyParts k l
  · rw [if_pos ⟨by omega, by omega, by omega, by omega, hbp, hk, hl⟩, if_pos hbp]
  · rw [if_neg (by rintro ⟨_, _, _, _, h5, _⟩; exact hbp h5), if_neg hbp]

/-- Closed form of the mock V-coordinate grid. -/
theorem mockV_char (k l : Nat) (hk : k < 256) (hl : l < 256) :
    get2 0 mockV k l =
      if 0 < get2 0 mockBodyParts k l then ((l % 100 : Nat) : ℚ) / 100 else 0 := by
  unfold mockV
  rw [get2_fill2 0 (fun i j => 0 < get2 0 mockBodyParts i j)
    (fun i j => ((j % 100 : Nat) : ℚ) / 100) 0 256 256 0 (zeros2 256 256 0) k l]
  rw [length_zeros2, row_zeros2, if_pos hk, get2_zeros2_self]
  by_cases hbp : 0 < get2 0 mockBodyParts k l
  · rw [if_pos ⟨by omega, by omega, by omega, by omega, hbp, hk, hl⟩, if_pos hbp]
  · rw [if_neg (by rintro ⟨_, _, _, _, h5, _⟩; exact hbp h5), if_neg hbp]


/-! ### Lemmas: the handlers -/

/-- A dict in which `image` was found is nonempty. -/
theorem isEmpty_false_of_lookup {d : JsonDict} {s : String}
    (h : d.lookup "image" = some s) : d.isEmpty = false := by
  cases d with
  | nil => simp [List.lookup] at h
  | cons a l => rfl

/-- Evaluation of the real handler's `try` block once the `image` value is
known. -/
theorem tryBlock_eval {ι P : Type} (p : P) (imdecode : List Nat → Option ι)
    (predictor : P → ι → Except String ModelOut) (d : JsonDict) (s : String)
    (himg : d.lookup "image" = some s) :
    tryBlock p imdecode predictor (some d) =
      match stripDataUrl s with
      | .error e => ⟨500, .errorObj ("Error processing image: " ++ e)⟩
      | .ok stripped =>
        match b64decode stripped with
        | .error e => ⟨500, .errorObj ("Error processing image: " ++ e)⟩
        | .ok bytes =>
          match imdecode bytes with
          | none => ⟨400, .errorObj "Failed to decode image"⟩
          | some img =>
            match predictor p img with
            | .error e => ⟨500, .errorObj ("Error processing image: " ++ e)⟩
            | .ok out =>
              match process_image out with
              | .err m => ⟨200, .errorObj m⟩
              | .ok r => ⟨200, .result r⟩ := by
  unfold tryBlock
  dsimp only
  rw [isEmpty_false_of_lookup himg, himg]
  rfl

/-- The mock handler returns the canned result (status 200) whenever the
parsed body has an `image` key. -/
theorem analyze_mock_ok {d : JsonDict} {s : String} (h : d.lookup "image" = some s) :
    analyze_mock (some d) = ⟨200, .result mockResult⟩ := by
  unfold analyze_mock
  dsimp only
  rw [isEmpty_false_of_lookup h, h]
  rfl

/-- The mock handler returns 400 whenever the `image` key is missing. -/
theorem analyze_mock_400 {d : JsonDict} (h : d.lookup "image" = none) :
    analyze_mock (some d)
      = ⟨400, .errorObj "Request must include 'image' field with base64-encoded image data"⟩ := by
  unfold analyze_mock
  dsimp only
  cases he : d.isEmpty
  · rw [h]
    rfl
  · rfl

/-- The `try` block returns 400 whenever the `image` key is missing. -/
theorem tryBlock_400 {ι P : Type} (p : P) (imdecode : List Nat → Option ι)
    (predictor : P → ι → Except String ModelOut) {d : JsonDict}
    (h : d.lookup "image" = none) :
    tryBlock p imdecode predictor (some d)
      = ⟨400, .errorObj "Request must include 'image' field with base64-encoded image data"⟩ := by
  unfold tryBlock
  dsimp only
  cases he : d.isEmpty
  · rw [h]
    rfl
  · rfl

/-- The only error payload `process_image` can produce. -/
theorem process_image_err {out : ModelOut} {m : String} (h : process_image out = .err m) :
    m = "No DensePose predictions available for this image" := by
  unfold process_image at h
  split at h
  · cases h
    rfl
  · cases h

/-- Exhaustive case analysis of the `try` block's responses. -/
theorem tryBlock_cases {ι P : Type} (p : P) (imdecode : List Nat → Option ι)
    (predictor : P → ι → Except String ModelOut) (data : Option JsonDict) :
    (tryBlock p imdecode predictor data).status = 400 ∨
    (tryBlock p imdecode predictor data).status = 500 ∨
    (∃ r, tryBlock p imdecode predictor data = ⟨200, .result r⟩) ∨
    tryBlock p imdecode predictor data
      = ⟨200, .errorObj "No DensePose predictions available for this image"⟩ := by
  unfold tryBlock
  split
  · exact Or.inl rfl
  · split
    · exact Or.inl rfl
    · split
      · exact Or.inl rfl
      · split
        · exact Or.inr (Or.inl rfl)
        · split
          · exact Or.inr (Or.inl rfl)
          · split
            · exact Or.inl rfl
            · split
              · exact Or.inr (Or.inl rfl)
              · split
                · rename_i m hm
                  rw [process_image_err hm]
                  exact Or.inr (Or.inr (Or.inr rfl))
                · rename_i r hr
                  exact Or.inr (Or.inr (Or.inl ⟨r, rfl⟩))

/-- If the `try` block answers 200, the body is a result or the
no-predictions error object. -/
theorem tryBlock_status200 {ι P : Type} (p : P) (imdecode : List Nat → Option ι)
    (predictor : P → ι → Except String ModelOut) (data : Option JsonDict)
    (h : (tryBlock p imdecode predictor data).status = 200) :
    (∃ r, (tryBlock p imdecode predictor data).body = RealBody.result r) ∨
    (tryBlock p imdecode predictor data).body
      = RealBody.errorObj "No DensePose predictions available for this image" := by
  rcases tryBlock_cases p imdecode predictor data with h4 | h5 | ⟨r, hr⟩ | hn
  · rw [h4] at h
    exact absurd h (by decide)
  · rw [h5] at h
    exact absurd h (by decide)
  · exact Or.inl ⟨r, by rw [hr]⟩
  · exact Or.inr (by rw [hn])

/-! ### The claims -/

/-- Claim C3 (confirmed): in the mock backend's response, the body-part grid
entry at row `r`, column `c` (each in `0..255`) is `1` on the torso rectangle
`100 ≤ r < 150, 100 ≤ c < 200`, `10` on the left-arm rectangle
`80 ≤ r < 100, 100 ≤ c < 130`, `11` on the right-arm rectangle
`150 ≤ r < 170, 100 ≤ c < 130`, and `0` everywhere else; in particular the
entries at `(120,150)`, `(90,110)` and `(160,110)` are `1`, `10` and `11`. -/
theorem claim_C3 :
    (∀ r c : Fin 256, get2 0 mockBodyParts r c =
      if 100 ≤ (r : Nat) ∧ (r : Nat) < 150 ∧ 100 ≤ (c : Nat) ∧ (c : Nat) < 200 then 1
      else if 80 ≤ (r : Nat) ∧ (r : Nat) < 100 ∧ 100 ≤ (c : Nat) ∧ (c : Nat) < 130 then 10
      else if 150 ≤ (r : Nat) ∧ (r : Nat) < 170 ∧ 100 ≤ (c : Nat) ∧ (c : Nat) < 130 then 11
      else 0) ∧
    get2 0 mockBodyParts 120 150 = 1 ∧
    get2 0 mockBodyParts 90 110 = 10 ∧
    get2 0 mockBodyParts 160 110 = 11 := by
  refine ⟨fun r c => mockBodyParts_char r c r.2 c.2, ?_, ?_, ?_⟩
  · rw [mockBodyParts_char 120 150 (by omega) (by omega)]
    norm_num
  · rw [mockBodyParts_char 90 110 (by omega) (by omega)]
    norm_num
  · rw [mockBodyParts_char 160 110 (by omega) (by omega)]
    norm_num

/-- Claim C4 (confirmed): in the mock backend's response, every pixel whose
body-part entry is positive has `u = (row % 100) / 100` and
`v = (col % 100) / 100`. -/
theorem claim_C4 (r c : Fin 256) (h : 0 < get2 0 mockBodyParts r c) :
    get2 0 mockU r c = (((r : Nat) % 100 : Nat) : ℚ) / 100 ∧
    get2 0 mockV r c = (((c : Nat) % 100 : Nat) : ℚ) / 100 := by
  rw [mockU_char r c r.2 c.2, mockV_char r c r.2 c.2, if_pos h, if_pos h]
  exact ⟨rfl, rfl⟩

theorem claim_C4_witness :
    0 < get2 0 mockBodyParts 120 150 ∧
    get2 0 mockU 120 150 = ((120 % 100 : Nat) : ℚ) / 100 ∧
    get2 0 mockV 120 150 = ((150 % 100 : Nat) : ℚ) / 100 := by
  have h : (0 : Int) < get2 0 mockBodyParts 120 150 := by
    rw [mockBodyParts_char 120 150 (by omega) (by omega)]
    norm_num
  exact ⟨h, claim_C4 ⟨120, by omega⟩ ⟨150, by omega⟩ h⟩

/-- Claim C10 (confirmed): in the mock backend's response, every background
pixel (body-part entry `0`) has `u = 0` and `v = 0` exactly. -/
theorem claim_C10 (r c : Fin 256) (h : get2 0 mockBodyParts r c = 0) :
    get2 0 mockU r c = 0 ∧ get2 0 mockV r c = 0 := by
  rw [mockU_char r c r.2 c.2, mockV_char r c r.2 c.2,
    if_neg (by omega), if_neg (by omega)]
  exact ⟨rfl, rfl⟩

theorem claim_C10_witness :
    get2 0 mockBodyParts 0 0 = 0 ∧ get2 0 mockU 0 0 = 0 ∧ get2 0 mockV 0 0 = 0 := by
  have h : get2 0 mockBodyParts 0 0 = 0 := by
    rw [mockBodyParts_char 0 0 (by omega) (by omega)]
    norm_num
  exact ⟨h, claim_C10 ⟨0, by omega⟩ ⟨0, by omega⟩ h⟩

/-- Claim C7 (corrected), counterexample: the claim says the mock instance's
`body_parts` field is itself a square 2D grid of dimension 256x256, i.e. a
list of 256 rows.  In the source the field is
`[np.zeros((256, 256), dtype=int).tolist()]` — a singleton list wrapping the
grid — so as a list it has length 1, not 256 (and likewise for
`u_coordinates` and `v_coordinates`). -/
theorem claim_C7_counterexample :
    mockInstance.body_parts = [mockBodyParts] ∧ mockInstance.body_parts.length = 1 ∧
    mockInstance.u_coordinates.length = 1 ∧ mockInstance.v_coordinates.length = 1 :=
  ⟨rfl, rfl, rfl, rfl⟩

/-- Claim C7 (corrected), amended claim: each of the mock instance's
`body_parts`, `u_coordinates` and `v_coordinates` fields is a singleton list
containing a square 2D grid of fixed dimension 256x256 (`body_parts` holding
integers, `u`/`v` holding floats, modelled as rationals). -/
theorem claim_C7_amended :
    mockInstance.body_parts = [mockBodyParts] ∧
    mockInstance.u_coordinates = [mockU] ∧
    mockInstance.v_coordinates = [mockV] ∧
    mockBodyParts.length = 256 ∧ (∀ i : Fin 256, (mockBodyParts.getD i []).length = 256) ∧
    mockU.length = 256 ∧ (∀ i : Fin 256, (mockU.getD i []).length = 256) ∧
    mockV.length = 256 ∧ (∀ i : Fin 256, (mockV.getD i []).length = 256) := by
  refine ⟨rfl, rfl, rfl, mockBodyParts_len, fun i => ?_, mockU_len, fun i => ?_,
    mockV_len, fun i => ?_⟩
  · rw [mockBodyParts_row i, if_pos i.2]
  · rw [mockU_row i, if_pos i.2]
  · rw [mockV_row i, if_pos i.2]

/-- Claim C8 (confirmed): the mock `/analyze` handler's output does not
depend on the image content: any two parsed bodies containing an `image` key
yield identical responses — status 200 with the fixed `mock_result` (one
instance, bbox `[50, 50, 200, 400]`, score `0.98`). -/
theorem claim_C8 (d₁ d₂ : JsonDict) (h₁ : (d₁.lookup "image").isSome = true)
    (h₂ : (d₂.lookup "image").isSome = true) :
    analyze_mock (some d₁) = analyze_mock (some d₂) ∧
    analyze_mock (some d₁) = ⟨200, .result mockResult⟩ ∧
    mockResult.num_instances = 1 ∧ mockResult.instances = [mockInstance] ∧
    mockInstance.bbox = [50, 50, 200, 400] ∧ mockInstance.score = 98 / 100 := by
  obtain ⟨s₁, hs₁⟩ := Option.isSome_iff_exists.mp h₁
  obtain ⟨s₂, hs₂⟩ := Option.isSome_iff_exists.mp h₂
  rw [analyze_mock_ok hs₁, analyze_mock_ok hs₂]
  exact ⟨rfl, rfl, rfl, rfl, rfl, rfl⟩

theorem claim_C8_witness :
    (([("image", "a")] : JsonDict).lookup "image").isSome = true ∧
    (([("image", "b"), ("x", "y")] : JsonDict).lookup "image").isSome = true ∧
    analyze_mock (some [("image", "a")]) = analyze_mock (some [("image", "b"), ("x", "y")]) :=
  ⟨rfl, rfl, (claim_C8 [("image", "a")] [("image", "b"), ("x", "y")] rfl rfl).1⟩

/-- Claim C6 (confirmed): in every `AnalysisResponse` either backend
produces, `num_instances` equals the length of `instances` — by construction
in the mock's literal and in `process_image`'s final dict. -/
theorem claim_C6 :
    mockResult.num_instances = mockResult.instances.length ∧
    ∀ (out : ModelOut) (r : RealResponse), process_image out = .ok r →
      r.num_instances = r.instances.length := by
  refine ⟨rfl, fun out r h => ?_⟩
  unfold process_image at h
  split at h
  · cases h
  · cases h
    rfl

theorem claim_C6_witness :
    process_image ⟨true, [], [], []⟩ = .ok ⟨0, []⟩ ∧
    (0 : Nat) = ([] : List RealInstance).length :=
  ⟨rfl, claim_C6.2 ⟨true, [], [], []⟩ ⟨0, []⟩ rfl⟩

/-- Claim C1 (corrected), counterexample: `"abc"` is not valid base64 (three
data characters cannot form a quad, so `base64.b64decode` raises
`binascii.Error: Incorrect padding`).  The claim says both backends answer
400, but the mock backend never looks at the image and answers 200 with the
canned result, and the real backend catches the decoding exception in its
generic `except` clause and answers 500, not 400. -/
theorem claim_C1_counterexample :
    analyze_mock (some [("image", "abc")]) = ⟨200, .result mockResult⟩ ∧
    analyze_real (ι := Unit) (P := Unit) (some ()) (.ok ()) (fun _ => none)
      (fun _ _ => .error "inference unreachable") (some [("image", "abc")]) =
      ⟨500, .errorObj "Error processing image: Incorrect padding"⟩ :=
  ⟨rfl, rfl⟩

/-- Claim C1 (corrected), amended: with the predictor initialized, the real
backend answers 500 (with an error message) when the stripped image string
makes `base64.b64decode` raise, and 400 (with an error message) when
decoding succeeds after discarding non-alphabet characters but the decoded
bytes fail to parse as an image; the mock backend ignores the image content
entirely and answers 200 with the canned `mock_result` whenever the body has
an `image` key. -/
theorem claim_C1_amended {ι P : Type} (p : P) (setup : Except String P)
    (imdecode : List Nat → Option ι) (predictor : P → ι → Except String ModelOut)
    (d : JsonDict) (s stripped : String)
    (himg : d.lookup "image" = some s) (hstrip : stripDataUrl s = .ok stripped) :
    (∀ e, b64decode stripped = .error e →
      analyze_real (some p) setup imdecode predictor (some d) =
        ⟨500, .errorObj ("Error processing image: " ++ e)⟩) ∧
    (∀ bytes, b64decode stripped = .ok bytes → imdecode bytes = none →
      analyze_real (some p) setup imdecode predictor (some d) =
        ⟨400, .errorObj "Failed to decode image"⟩) ∧
    (∀ d' : JsonDict, (d'.lookup "image").isSome = true →
      analyze_mock (some d') = ⟨200, .result mockResult⟩) := by
  have hreal : analyze_real (some p) setup imdecode predictor (some d)
      = tryBlock p imdecode predictor (some d) := rfl
  refine ⟨fun e he => ?_, fun bytes hb hi => ?_, fun d' hd' => ?_⟩
  · rw [hreal, tryBlock_eval p imdecode predictor d s himg]
    simp only [hstrip, he]
  · rw [hreal, tryBlock_eval p imdecode predictor d s himg]
    simp only [hstrip, hb, hi]
  · obtain ⟨s', hs'⟩ := Option.isSome_iff_exists.mp hd'
    exact analyze_mock_ok hs'

theorem claim_C1_amended_witness :
    ([("image", "!!!!")] : JsonDict).lookup "image" = some "!!!!" ∧
    stripDataUrl "!!!!" = .ok "!!!!" ∧
    b64decode "!!!!" = .ok [] ∧
    analyze_real (ι := Unit) (P := Unit) (some ()) (.ok ()) (fun _ => none)
      (fun _ _ => .error "inference unreachable") (some [("image", "!!!!")]) =
      ⟨400, .errorObj "Failed to decode image"⟩ :=
  ⟨rfl, rfl, rfl,
    (claim_C1_amended (ι := Unit) (P := Unit) () (.ok ()) (fun _ => none)
      (fun _ _ => .error "inference unreachable") [("image", "!!!!")] "!!!!" "!!!!"
      rfl rfl).2.1 [] rfl rfl⟩

/-- Claim C2 (corrected), counterexample: when inference succeeds but the
predicted instances have no `pred_densepose` field, `process_image` returns
the bare error dict and `analyze_pose` serializes it with Flask's default
status 200 — a 200 response whose body is not an `AnalysisResponse`. -/
theorem claim_C2_counterexample :
    analyze_real (ι := Unit) (P := Unit) (some ()) (.ok ()) (fun _ => some ())
      (fun _ _ => .ok ⟨false, [], [], []⟩) (some [("image", "")]) =
      ⟨200, .errorObj "No DensePose predictions available for this image"⟩ :=
  rfl

/-- Claim C2 (corrected), amended: whenever the real backend answers 200, the
body is an `AnalysisResponse` except in one case: when the model output has
no DensePose predictions the body is the bare error object
`{error: "No DensePose predictions available for this image"}`, still with
status 200. -/
theorem claim_C2_amended {ι P : Type} (pred : Option P) (setup : Except String P)
    (imdecode : List Nat → Option ι) (predictor : P → ι → Except String ModelOut)
    (data : Option JsonDict)
    (h200 : (analyze_real pred setup imdecode predictor data).status = 200) :
    (∃ r, (analyze_real pred setup imdecode predictor data).body = RealBody.result r) ∨
    (analyze_real pred setup imdecode predictor data).body
      = RealBody.errorObj "No DensePose predictions available for this image" := by
  cases pred with
  | some p => exact tryBlock_status200 p imdecode predictor data h200
  | none =>
    cases setup with
    | ok p => exact tryBlock_status200 p imdecode predictor data h200
    | error e =>
      have h : (500 : Nat) = 200 := h200
      exact absurd h (by decide)

theorem claim_C2_amended_witness :
    (analyze_real (ι := Unit) (P := Unit) (some ()) (.ok ()) (fun _ => some ())
      (fun _ _ => .ok ⟨true, [], [], []⟩) (some [("image", "")])).status = 200 ∧
    ((∃ r, (analyze_real (ι := Unit) (P := Unit) (some ()) (.ok ()) (fun _ => some ())
        (fun _ _ => .ok ⟨true, [], [], []⟩) (some [("image", "")])).body
          = RealBody.result r) ∨
      (analyze_real (ι := Unit) (P := Unit) (some ()) (.ok ()) (fun _ => some ())
        (fun _ _ => .ok ⟨true, [], [], []⟩) (some [("image", "")])).body
          = RealBody.errorObj "No DensePose predictions available for this image") :=
  ⟨rfl, claim_C2_amended (some ()) (.ok ()) (fun _ => some ())
    (fun _ _ => .ok ⟨true, [], [], []⟩) (some [("image", "")]) rfl⟩

/-- Claim C5 (corrected), counterexample: the real handler checks the global
predictor before looking at the request body (lines 124-130 precede 133-136),
so a request with an empty JSON object while the predictor is uninitialized
and initialization raises gets 500, not the claimed 400. -/
theorem claim_C5_counterexample :
    analyze_real (ι := Unit) (P := Unit) none (.error "boom") (fun _ => none)
      (fun _ _ => .error "unused") (some []) =
      ⟨500, .errorObj "Failed to initialize DensePose predictor: boom"⟩ :=
  rfl

/-- Claim C5 (corrected), amended: for every request whose parsed JSON body
is absent, empty, or lacks the `image` key, the mock backend answers 400 with
an error message, and the real backend answers 400 provided its predictor is
already initialized or initialization succeeds (otherwise the 500 of failed
initialization wins); the 400 answers are uniform in the image decoder and
the predictor, i.e. no inference is invoked and no response constructed. -/
theorem claim_C5_amended {ι P : Type} (imdecode : List Nat → Option ι)
    (predictor : P → ι → Except String ModelOut) (data : Option JsonDict)
    (hmiss : missingImage data) :
    analyze_mock data
      = ⟨400, .errorObj "Request must include 'image' field with base64-encoded image data"⟩ ∧
    (∀ (p : P) (setup : Except String P),
      analyze_real (some p) setup imdecode predictor data
        = ⟨400, .errorObj "Request must include 'image' field with base64-encoded image data"⟩) ∧
    (∀ p : P,
      analyze_real none (.ok p) imdecode predictor data
        = ⟨400, .errorObj "Request must include 'image' field with base64-encoded image data"⟩) := by
  cases data with
  | none => exact ⟨rfl, fun p setup => rfl, fun p => rfl⟩
  | some d =>
    have hlk : d.lookup "image" = none := by
      rcases hmiss with h | h
      · rw [h]
        rfl
      · exact h
    exact ⟨analyze_mock_400 hlk, fun p setup => tryBlock_400 p imdecode predictor hlk,
      fun p => tryBlock_400 p imdecode predictor hlk⟩

theorem claim_C5_amended_witness :
    missingImage (some [("x", "y")]) ∧
    analyze_mock (some [("x", "y")])
      = ⟨400, .errorObj "Request must include 'image' field with base64-encoded image data"⟩ ∧
    analyze_real (ι := Unit) (P := Unit) (some ()) (.ok ()) (fun _ => none)
      (fun _ _ => .error "unused") (some [("x", "y")])
      = ⟨400, .errorObj "Request must include 'image' field with base64-encoded image data"⟩ := by
  have hm : missingImage (some [("x", "y")]) := Or.inr rfl
  exact ⟨hm,
    (claim_C5_amended (ι := Unit) (P := Unit) (fun _ => none) (fun _ _ => .error "unused")
      (some [("x", "y")]) hm).1,
    (claim_C5_amended (ι := Unit) (P := Unit) (fun _ => none) (fun _ _ => .error "unused")
      (some [("x", "y")]) hm).2.1 () (.ok ())⟩

/-- Claim C9 (confirmed): in the real backend, a request that finds the
predictor uninitialized while `setup_densepose_predictor()` raises gets
`500 {error: "Failed to initialize DensePose predictor: " + str(e)}`, and a
request that reaches inference which raises gets
`500 {error: "Error processing image: " + str(e)}` — in both cases the body
contains the exception's message text. -/
theorem claim_C9 {ι P : Type} :
    (∀ (e : String) (imdecode : List Nat → Option ι)
        (predictor : P → ι → Except String ModelOut) (data : Option JsonDict),
      analyze_real none (.error e) imdecode predictor data
        = ⟨500, .errorObj ("Failed to initialize DensePose predictor: " ++ e)⟩) ∧
    (∀ (p : P) (setup : Except String P) (imdecode : List Nat → Option ι)
        (predictor : P → ι → Except String ModelOut) (d : JsonDict)
        (s stripped : String) (bytes : List Nat) (img : ι) (e : String),
      d.lookup "image" = some s → stripDataUrl s = .ok stripped →
      b64decode stripped = .ok bytes → imdecode bytes = some img →
      predictor p img = .error e →
      analyze_real (some p) setup imdecode predictor (some d)
        = ⟨500, .errorObj ("Error processing image: " ++ e)⟩) := by
  constructor
  · intro e imdecode predictor data
    rfl
  · intro p setup imdecode predictor d s stripped bytes img e h1 h2 h3 h4 h5
    have hreal : analyze_real (some p) setup imdecode predictor (some d)
        = tryBlock p imdecode predictor (some d) := rfl
    rw [hreal, tryBlock_eval p imdecode predictor d s h1]
    simp only [h2, h3, h4, h5]

theorem claim_C9_witness :
    ([("image", "")] : JsonDict).lookup "image" = some "" ∧
    stripDataUrl "" = .ok "" ∧ b64decode "" = .ok [] ∧
    analyze_real (ι := Unit) (P := Unit) (some ()) (.ok ()) (fun _ => some ())
      (fun _ _ => .error "boom") (some [("image", "")]) =
      ⟨500, .errorObj "Error processing image: boom"⟩ :=
  ⟨rfl, rfl, rfl,
    (claim_C9 (ι := Unit) (P := Unit)).2 () (.ok ()) (fun _ => some ())
      (fun _ _ => .error "boom") [("image", "")] "" "" [] () "boom" rfl rfl rfl rfl rfl⟩
